import Mathlib

/-!
Verification development for the token-mill backend (`TokenMillClient` in
`src/utils/tokenMill.ts` together with the HTTP shell in `src/index.ts`).

The TypeScript client is shallowly embedded: ledger interaction
(`getAccountInfo`, `getTokenAccountBalance`, `simulateTransaction`,
account fetches) is modelled by an explicit `Ledger` record of read
functions, each client method becomes a pure function from a `Ledger`
(and an `Env` of the process-wide wallet / swap-authority / program /
config addresses) to its result, the updated ledger, and the ordered
list of transactions it submitted.  `sendTransaction` +
`confirmTransaction` pairs are modelled as successful submissions that
append the transaction to the trace and mark any account the
transaction creates as existing; on-chain rejection of a submitted
transaction is not modelled (none of the verified properties are about
that failure path).  Public keys are modelled by the inductive
`Address`, with program-derived addresses built from the exact seed
lists the source passes to `PublicKey.findProgramAddressSync`.
-/

namespace TokenMill

/-- A Solana public key.  `key s` is an externally given key (wallet,
mint, request parameter, program id) identified by its base58 string;
the remaining constructors build the result of
`PublicKey.findProgramAddressSync` (see `findProgramAddressSync`) and
`spl.getAssociatedTokenAddressSync mint owner` (`ata`), so that
derivations with different seeds are distinct by construction. -/
inductive Address where
  | key : String → Address
  | progBase : Address → Address
  | extLit : Address → String → Address
  | extAddr : Address → Address → Address
  | ata : Address → Address → Address
deriving DecidableEq, Repr

/-- One element of the seed list handed to
`PublicKey.findProgramAddressSync`: either a literal tag
(`Buffer.from("...")`) or a public key (`pk.toBuffer()`). -/
inductive Seed where
  | lit : String → Seed
  | addr : Address → Seed
deriving DecidableEq, Repr

/-- Fold one seed into a partially built derived address. -/
def seedExt (a : Address) : Seed → Address
  | .lit s => .extLit a s
  | .addr b => .extAddr a b

/-- Models `PublicKey.findProgramAddressSync(seeds, programId)[0]`:
a deterministic, injective function of the seed list and program id. -/
def findProgramAddressSync (seeds : List Seed) (programId : Address) : Address :=
  seeds.foldl seedExt (Address.progBase programId)

/-- The hardcoded wSOL mint `So11111111111111111111111111111111111111112`. -/
def wSOL : Address := Address.key "So11111111111111111111111111111111111111112"

/-- The hardcoded metadata program id
`metaqbxxUerdq28cj1RbAWkYQm3ybzjb6a8bt518x1s`. -/
def metaplexProgramId : Address :=
  Address.key "metaqbxxUerdq28cj1RbAWkYQm3ybzjb6a8bt518x1s"

/-- Process-wide constants loaded once at startup: the signing wallet
(`WALLET_PRIVATE_KEY`), the delegated swap authority's public key
(`SWAP_AUTHORITY_KEY`), the program id, and the configured config
account (`TOKEN_MILL_CONFIG_PDA`). -/
structure Env where
  wallet : Address
  swapAuthority : Address
  programId : Address
  config : Address
deriving DecidableEq, Repr

/-- `action: 'buy' | 'sell'` from `SwapParams`. -/
inductive SwapAction where
  | buy | sell
deriving DecidableEq, Repr

/-- `tradeType: 'exactInput' | 'exactOutput'` from `SwapParams`. -/
inductive TradeType where
  | exactInput | exactOutput
deriving DecidableEq, Repr

/-- The `SwapParams` request body of `executeSwap` / `quoteSwap`. -/
structure SwapParams where
  market : String
  quoteTokenMint : String
  action : SwapAction
  tradeType : TradeType
  amount : Nat
  otherAmountThreshold : Nat
deriving DecidableEq, Repr

/-! ## Quote decoder (`parseSwapAmounts`) -/

/-- The decoded swap quote `{ inputAmount, outputAmount }`. -/
structure SwapAmounts where
  inputAmount : Nat
  outputAmount : Nat
deriving DecidableEq, Repr

/-- `simulation.value.returnData`: `data[0]` is the base64 payload. -/
structure ReturnData where
  data : List String
deriving DecidableEq, Repr

/-- `buffer.readBigUInt64LE(off)`: the little-endian unsigned 64-bit
integer formed by bytes `[off, off+8)` of the buffer. -/
def readBigUInt64LE (buf : List Nat) (off : Nat) : Nat :=
  buf.getD off 0
    + 256 * buf.getD (off + 1) 0
    + 65536 * buf.getD (off + 2) 0
    + 16777216 * buf.getD (off + 3) 0
    + 4294967296 * buf.getD (off + 4) 0
    + 1099511627776 * buf.getD (off + 5) 0
    + 281474976710656 * buf.getD (off + 6) 0
    + 72057594037927936 * buf.getD (off + 7) 0

/-- The body of `parseSwapAmounts` after base64 decoding: the
`buffer.length < 16` guard, then the two little-endian u64 reads at
offsets 0 and 8. -/
def parseSwapBuffer (buffer : List Nat) : SwapAmounts :=
  if buffer.length < 16 then ⟨0, 0⟩
  else ⟨readBigUInt64LE buffer 0, readBigUInt64LE buffer 8⟩

/-- The value of a base64 digit character; `none` for characters
outside the alphabet (Node's base64 decoder skips those, including
the `=` padding). -/
def b64Index (c : Char) : Option Nat :=
  if 'A' ≤ c ∧ c ≤ 'Z' then some (c.toNat - 65)
  else if 'a' ≤ c ∧ c ≤ 'z' then some (c.toNat - 97 + 26)
  else if '0' ≤ c ∧ c ≤ '9' then some (c.toNat - 48 + 52)
  else if c = '+' then some 62
  else if c = '/' then some 63
  else none

/-- The base64 digit character of a 6-bit value. -/
def b64Char (n : Nat) : Char :=
  if n < 26 then Char.ofNat (65 + n)
  else if n < 52 then Char.ofNat (97 + n - 26)
  else if n < 62 then Char.ofNat (48 + n - 52)
  else if n = 62 then '+'
  else '/'

/-- Standard base64 encoding of a byte list (RFC 4648, with padding),
modelling the wire encoding of a simulation return buffer. -/
def base64EncodeChunks : List Nat → List Char
  | [] => []
  | [b0] => [b64Char (b0 / 4), b64Char (b0 % 4 * 16), '=', '=']
  | [b0, b1] => [b64Char (b0 / 4), b64Char (b0 % 4 * 16 + b1 / 16), b64Char (b1 % 16 * 4), '=']
  | b0 :: b1 :: b2 :: rest =>
      b64Char (b0 / 4) :: b64Char (b0 % 4 * 16 + b1 / 16)
        :: b64Char (b1 % 16 * 4 + b2 / 64) :: b64Char (b2 % 64)
        :: base64EncodeChunks rest

/-- Base64-encode a byte list into a string. -/
def base64Encode (bs : List Nat) : String := ⟨base64EncodeChunks bs⟩

/-- Reassemble bytes from a list of 6-bit values (a trailing group of
two or three sextets yields one or two bytes, as in Node). -/
def sextetsToBytes : List Nat → List Nat
  | s0 :: s1 :: s2 :: s3 :: rest =>
      (s0 * 4 + s1 / 16) :: (s1 % 16 * 16 + s2 / 4) :: (s2 % 4 * 64 + s3)
        :: sextetsToBytes rest
  | [s0, s1] => [s0 * 4 + s1 / 16]
  | [s0, s1, s2] => [s0 * 4 + s1 / 16, s1 % 16 * 16 + s2 / 4]
  | _ => []

/-- Models `Buffer.from(s, "base64")`. -/
def base64Decode (s : String) : List Nat :=
  sextetsToBytes (s.toList.filterMap b64Index)

/-- `parseSwapAmounts(returnData)` from the source: `{0,0}` for a
missing `returnData` (or one whose `data` array has no first element,
where `Buffer.from(undefined)` throws into the catch), otherwise
base64-decode `data[0]` and apply the 16-byte guard and the two
little-endian u64 reads. -/
def parseSwapAmounts (returnData : Option ReturnData) : SwapAmounts :=
  match returnData with
  | none => ⟨0, 0⟩
  | some rd =>
      match rd.data with
      | [] => ⟨0, 0⟩
      | s :: _ => parseSwapBuffer (base64Decode s)

/-- Encoding of a `uint64` as eight little-endian bytes (the layout
the spec's round-trip property describes). -/
def encodeUInt64LE (n : Nat) : List Nat :=
  [n % 256, n / 256 % 256, n / 65536 % 256, n / 16777216 % 256,
   n / 4294967296 % 256, n / 1099511627776 % 256,
   n / 281474976710656 % 256, n / 72057594037927936 % 256]

/-! ## Transactions -/

/-- The accounts passed to `program.methods.permissionedSwap(...)
.accountsPartial({...})`.  `swapAuthorityBadge` is optional because
the free-market branch of `executeSwap` omits it. -/
structure PermSwapAccounts where
  config : Address
  market : Address
  baseTokenMint : Address
  quoteTokenMint : Address
  marketBaseTokenAta : Address
  marketQuoteTokenAta : Address
  userBaseTokenAccount : Address
  userQuoteTokenAccount : Address
  protocolQuoteTokenAta : Address
  referralTokenAccount : Address
  swapAuthority : Address
  swapAuthorityBadge : Option Address
  user : Address
deriving DecidableEq, Repr

/-- A transaction submitted through `connection.sendTransaction` (or an
anchor `.rpc()` call), recording the instruction, its key accounts and
arguments, and the signer list. -/
inductive Tx where
  | createConfigIx (config payer authority protocolFeeRecipient : Address)
      (protocolFeeShare referralFeeShare : Nat) (signers : List Address)
  | createMarketWithSpl (name symbol uri : String)
      (totalSupplyRaw creatorFeeShare stakingFeeShare : Nat)
      (config market baseTokenMint baseTokenMetadata marketBaseTokenAta
        quoteTokenMint quoteTokenBadge creator : Address)
      (signers : List Address)
  | lockMarket (market : Address) (swapAuthorityBadge : Option Address)
      (lockAuthority creator : Address) (signers : List Address)
  | setMarketPrices (market creator : Address) (signers : List Address)
  | freeMarketIx (market swapAuthority : Address) (signers : List Address)
  | createStaking (market staking payer : Address) (signers : List Address)
  | createStakePosition (market stakePosition user : Address) (signers : List Address)
  | createAta (mint owner payer : Address)
  | permissionedSwap (action : SwapAction) (tradeType : TradeType)
      (amount otherAmountThreshold : Nat)
      (accounts : PermSwapAccounts) (signers : List Address)
deriving DecidableEq, Repr

/-- Instruction kind of a transaction (used to state ordering claims). -/
inductive TxKind where
  | createConfigK | createMarketK | lockMarketK | setMarketPricesK
  | freeMarketK | createStakingK | createStakePositionK | createAtaK
  | permissionedSwapK
deriving DecidableEq, Repr

/-- The instruction kind of a transaction. -/
def Tx.kind : Tx → TxKind
  | .createConfigIx _ _ _ _ _ _ _ => .createConfigK
  | .createMarketWithSpl _ _ _ _ _ _ _ _ _ _ _ _ _ _ _ => .createMarketK
  | .lockMarket _ _ _ _ _ => .lockMarketK
  | .setMarketPrices _ _ _ => .setMarketPricesK
  | .freeMarketIx _ _ _ => .freeMarketK
  | .createStaking _ _ _ _ => .createStakingK
  | .createStakePosition _ _ _ _ => .createStakePositionK
  | .createAta _ _ _ => .createAtaK
  | .permissionedSwap _ _ _ _ _ _ => .permissionedSwapK

/-- Whether a transaction is an associated-token-account creation. -/
def Tx.isCreateAta (t : Tx) : Bool := t.kind = TxKind.createAtaK

/-- Whether a transaction is a `freeMarket` instruction. -/
def Tx.isFreeMarketIx (t : Tx) : Bool := t.kind = TxKind.freeMarketK

/-- Whether a transaction is a `permissionedSwap` instruction. -/
def Tx.isPermSwap (t : Tx) : Bool := t.kind = TxKind.permissionedSwapK

/-- The signer list of a transaction (`createAta` is signed by the
paying wallet inside `getOrCreateAssociatedTokenAccount`). -/
def Tx.txSigners : Tx → List Address
  | .createConfigIx _ _ _ _ _ _ s => s
  | .createMarketWithSpl _ _ _ _ _ _ _ _ _ _ _ _ _ _ s => s
  | .lockMarket _ _ _ _ s => s
  | .setMarketPrices _ _ s => s
  | .freeMarketIx _ _ s => s
  | .createStaking _ _ _ s => s
  | .createStakePosition _ _ _ s => s
  | .createAta _ _ payer => [payer]
  | .permissionedSwap _ _ _ _ _ s => s

/-- The `swapAuthority` account of a `permissionedSwap` transaction. -/
def Tx.swapAuthorityAccount : Tx → Option Address
  | .permissionedSwap _ _ _ _ accts _ => some accts.swapAuthority
  | _ => none

/-- The `swapAuthorityBadge` account of a `permissionedSwap`
transaction, when present. -/
def Tx.swapAuthorityBadgeAccount : Tx → Option Address
  | .permissionedSwap _ _ _ _ accts _ => accts.swapAuthorityBadge
  | _ => none

/-- The account a provisioning transaction creates, if any. -/
def Tx.createdAccount : Tx → Option Address
  | .createStaking _ staking _ _ => some staking
  | .createStakePosition _ stakePosition _ _ => some stakePosition
  | .createAta mint owner _ => some (.ata mint owner)
  | .createMarketWithSpl _ _ _ _ _ _ _ market _ _ _ _ _ _ _ => some market
  | .createConfigIx config _ _ _ _ _ _ => some config
  | _ => none

/-! ## The ledger collaborator -/

/-- Result of `connection.simulateTransaction`. -/
structure SimResult where
  err : Option String
  returnData : Option ReturnData
deriving DecidableEq, Repr

/-- The remote ledger as seen through the RPC collaborator:
`getAccountInfo` (as an existence predicate), `getTokenAccountBalance`
(the `value.uiAmount`, `none` when the RPC reports `null`), the fields
read from fetched `market` and `tokenMillConfig` accounts, and
`simulateTransaction`. -/
structure Ledger where
  accountExists : Address → Bool
  tokenBalance : Address → Option ℚ
  marketConfigOf : Address → Address
  baseTokenMintOf : Address → Address
  protocolFeeRecipientOf : Address → Address
  simulate : Tx → SimResult

/-- Mark one account as existing. -/
def markExists (L : Ledger) (a : Address) : Ledger :=
  { L with accountExists := fun x => if x = a then true else L.accountExists x }

/-- Submit a transaction: a successfully confirmed creation makes the
created account exist; other transactions leave the modelled ledger
reads unchanged. -/
def sendTx (L : Ledger) (t : Tx) : Ledger :=
  match t.createdAccount with
  | some a => markExists L a
  | none => L

/-! ## Lifecycle state -/

/-- `REQUIRED_WSOL_AMOUNT`: the fixed 69-whole-unit threshold, in the
quote asset's human-readable units. -/
def REQUIRED_WSOL_AMOUNT : ℚ := 69

/-- The derived two-state market lifecycle. -/
inductive LifecycleState where
  | LOCKED | FREE
deriving DecidableEq, Repr

/-- The observed lifecycle state for a quote-asset token-account
balance `uiAmount` (`uiAmount || 0` in the source turns a `null`
balance into 0): `FREE` once the 69-unit threshold is met, `LOCKED`
otherwise. -/
def observe (uiAmount : Option ℚ) : LifecycleState :=
  if uiAmount.getD 0 < REQUIRED_WSOL_AMOUNT then .LOCKED else .FREE

/-! ## Swap-authority badge seed lists

One definition per call site of `PublicKey.findProgramAddressSync`
with the `"swap_authority"` tag, each copied from the seed array at
that site. -/

/-- Seeds of the badge derivation in `createMarket`
(`[Buffer.from("swap_authority"), market.toBuffer(),
swapAuthority.publicKey.toBuffer()]`). -/
def swapAuthorityBadgeSeedsCreateMarket (market authority : Address) : List Seed :=
  [.lit "swap_authority", .addr market, .addr authority]

/-- Seeds of the badge derivation in `freeMarket`
(`[Buffer.from("swap_authority"), marketPubkey.toBuffer()]` — note the
missing authority component). -/
def swapAuthorityBadgeSeedsFreeMarket (market : Address) : List Seed :=
  [.lit "swap_authority", .addr market]

/-- Seeds of the badge derivation in `executeSwap`. -/
def swapAuthorityBadgeSeedsExecuteSwap (market authority : Address) : List Seed :=
  [.lit "swap_authority", .addr market, .addr authority]

/-- Seeds of the badge derivation in `quoteSwap`. -/
def swapAuthorityBadgeSeedsQuoteSwap (market authority : Address) : List Seed :=
  [.lit "swap_authority", .addr market, .addr authority]

/-- The seed sequence the spec's derivation table prescribes for the
swap-authority badge: literal tag `swap_authority`, then the market
address, then the authority address. -/
def specSwapAuthorityBadgeSeeds (market authority : Address) : List Seed :=
  [.lit "swap_authority", .addr market, .addr authority]

/-! ## freeMarket -/

/-- Errors `freeMarket` throws before or instead of submitting: the
missing-market validation, and the pre-flight threshold guard whose
message interpolates the observed balance and the required 69. -/
inductive FreeMarketError where
  | marketAddressRequired
  | preconditionUnmet (observed required : ℚ)
deriving DecidableEq, Repr

/-- The success payload of `freeMarket` (the signature string is not
modelled; the submitted transaction appears in the trace). -/
structure FreeMarketOk where
  success : Bool
  message : String
deriving DecidableEq, Repr

/-- `TokenMillClient.freeMarket(market)`: validate the market address,
read the market's wSOL associated-token-account balance fresh from the
ledger, reject below the 69 threshold before building any transaction,
otherwise derive the (unused) badge and submit the `freeMarket`
instruction signed by the wallet and the swap authority. -/
def freeMarket (env : Env) (L : Ledger) (market : String) :
    Except FreeMarketError FreeMarketOk × Ledger × List Tx :=
  if market = "" then (.error .marketAddressRequired, L, [])
  else
    let marketPubkey := Address.key market
    let marketQuoteTokenAta := Address.ata wSOL marketPubkey
    let baseTokenBalance := (L.tokenBalance marketQuoteTokenAta).getD 0
    if baseTokenBalance < REQUIRED_WSOL_AMOUNT then
      (.error (.preconditionUnmet baseTokenBalance REQUIRED_WSOL_AMOUNT), L, [])
    else
      let _swapAuthorityBadge :=
        findProgramAddressSync (swapAuthorityBadgeSeedsFreeMarket marketPubkey) env.programId
      let tx := Tx.freeMarketIx marketPubkey env.swapAuthority [env.wallet, env.swapAuthority]
      (.ok ⟨true, "Market freed successfully"⟩, sendTx L tx, [tx])

/-! ## Associated-token-account provisioning -/

/-- `spl.getOrCreateAssociatedTokenAccount(connection, wallet, mint,
owner, ...)`: returns the deterministic associated address, creating
the account (one submitted transaction paid by the wallet) only when
it does not exist. -/
def getOrCreateAssociatedTokenAccount (env : Env) (L : Ledger) (mint owner : Address) :
    Address × Ledger × List Tx :=
  let a := Address.ata mint owner
  if L.accountExists a then (a, L, [])
  else
    let tx := Tx.createAta mint owner env.wallet
    (a, sendTx L tx, [tx])

/-! ## executeSwap -/

/-- The success payload of `executeSwap`. -/
structure SwapOk where
  success : Bool
  message : String
deriving DecidableEq, Repr

/-- `TokenMillClient.executeSwap(params)`: fetch the market's config
and base mint, resolve (creating if absent) the market/user base and
quote associated token accounts and the protocol-fee quote account,
read the market's wSOL balance fresh, and branch on the 69 threshold:
below it, submit a `permissionedSwap` signed by the wallet and the
delegated swap authority, with the swap-authority badge account and
`swapAuthority` set to the delegated authority; at or above it, first
submit a `freeMarket` transaction, then a `permissionedSwap` signed by
the wallet alone with `swapAuthority` set to the wallet and no badge
account.  Note the request's `quoteTokenMint` field is shadowed by the
hardcoded wSOL constant, exactly as in the source. -/
def executeSwap (env : Env) (L : Ledger) (p : SwapParams) : SwapOk × Ledger × List Tx :=
  let marketPubkey := Address.key p.market
  let config := L.marketConfigOf marketPubkey
  let baseTokenMint := L.baseTokenMintOf marketPubkey
  let quoteTokenMint := wSOL
  let r1 := getOrCreateAssociatedTokenAccount env L baseTokenMint marketPubkey
  let r2 := getOrCreateAssociatedTokenAccount env r1.2.1 baseTokenMint env.wallet
  let r3 := getOrCreateAssociatedTokenAccount env r2.2.1 quoteTokenMint marketPubkey
  let marketQuoteTokenAta2 := Address.ata quoteTokenMint marketPubkey
  let baseTokenBalance := ((r3.2.1).tokenBalance marketQuoteTokenAta2).getD 0
  let r4 := getOrCreateAssociatedTokenAccount env r3.2.1 quoteTokenMint env.wallet
  let r5 := getOrCreateAssociatedTokenAccount env r4.2.1 quoteTokenMint
    (L.protocolFeeRecipientOf config)
  let swapAuthorityBadge :=
    findProgramAddressSync
      (swapAuthorityBadgeSeedsExecuteSwap marketPubkey env.swapAuthority) env.programId
  let setupTrace := r1.2.2 ++ r2.2.2 ++ r3.2.2 ++ r4.2.2 ++ r5.2.2
  if baseTokenBalance < REQUIRED_WSOL_AMOUNT then
    let accounts : PermSwapAccounts :=
      { config := config, market := marketPubkey, baseTokenMint := baseTokenMint,
        quoteTokenMint := quoteTokenMint, marketBaseTokenAta := r1.1,
        marketQuoteTokenAta := r3.1, userBaseTokenAccount := r2.1,
        userQuoteTokenAccount := r4.1, protocolQuoteTokenAta := r5.1,
        referralTokenAccount := env.programId, swapAuthority := env.swapAuthority,
        swapAuthorityBadge := some swapAuthorityBadge, user := env.wallet }
    let tx := Tx.permissionedSwap p.action p.tradeType p.amount p.otherAmountThreshold
      accounts [env.wallet, env.swapAuthority]
    (⟨true, "Swap executed successfully"⟩, sendTx r5.2.1 tx, setupTrace ++ [tx])
  else
    let freeTx := Tx.freeMarketIx marketPubkey env.swapAuthority [env.wallet, env.swapAuthority]
    let accounts : PermSwapAccounts :=
      { config := config, market := marketPubkey, baseTokenMint := baseTokenMint,
        quoteTokenMint := quoteTokenMint, marketBaseTokenAta := r1.1,
        marketQuoteTokenAta := r3.1, userBaseTokenAccount := r2.1,
        userQuoteTokenAccount := r4.1, protocolQuoteTokenAta := r5.1,
        referralTokenAccount := env.programId, swapAuthority := env.wallet,
        swapAuthorityBadge := none, user := env.wallet }
    let tx := Tx.permissionedSwap p.action p.tradeType p.amount p.otherAmountThreshold
      accounts [env.wallet]
    (⟨true, "Swap executed successfully"⟩, sendTx (sendTx r5.2.1 freeTx) tx,
      setupTrace ++ [freeTx, tx])

/-! ## quoteSwap -/

/-- The success payload of `quoteSwap`: the raw simulation result is
returned; the decoded amounts are only logged. -/
structure QuoteOk where
  success : Bool
  simulation : SimResult
  message : String
deriving DecidableEq, Repr

/-- `TokenMillClient.quoteSwap(params)`: identical account setup to
`executeSwap` (including creation of missing associated token
accounts), then unconditionally build the `permissionedSwap` with the
badge account and both signers, simulate it (never submit it), decode
the return buffer only for logging, and return the raw simulation
result on success. -/
def quoteSwap (env : Env) (L : Ledger) (p : SwapParams) :
    Except String QuoteOk × Ledger × List Tx :=
  let marketPubkey := Address.key p.market
  let config := L.marketConfigOf marketPubkey
  let baseTokenMint := L.baseTokenMintOf marketPubkey
  let quoteTokenMint := wSOL
  let r1 := getOrCreateAssociatedTokenAccount env L baseTokenMint marketPubkey
  let r2 := getOrCreateAssociatedTokenAccount env r1.2.1 baseTokenMint env.wallet
  let r3 := getOrCreateAssociatedTokenAccount env r2.2.1 quoteTokenMint marketPubkey
  let marketQuoteTokenAta2 := Address.ata quoteTokenMint marketPubkey
  let _baseTokenBalance := ((r3.2.1).tokenBalance marketQuoteTokenAta2).getD 0
  let r4 := getOrCreateAssociatedTokenAccount env r3.2.1 quoteTokenMint env.wallet
  let r5 := getOrCreateAssociatedTokenAccount env r4.2.1 quoteTokenMint
    (L.protocolFeeRecipientOf config)
  let swapAuthorityBadge :=
    findProgramAddressSync
      (swapAuthorityBadgeSeedsQuoteSwap marketPubkey env.swapAuthority) env.programId
  let accounts : PermSwapAccounts :=
    { config := config, market := marketPubkey, baseTokenMint := baseTokenMint,
      quoteTokenMint := quoteTokenMint, marketBaseTokenAta := r1.1,
      marketQuoteTokenAta := r3.1, userBaseTokenAccount := r2.1,
      userQuoteTokenAccount := r4.1, protocolQuoteTokenAta := r5.1,
      referralTokenAccount := env.programId, swapAuthority := env.swapAuthority,
      swapAuthorityBadge := some swapAuthorityBadge, user := env.wallet }
  let tx := Tx.permissionedSwap p.action p.tradeType p.amount p.otherAmountThreshold
    accounts [env.wallet, env.swapAuthority]
  let simulation := (r5.2.1).simulate tx
  let _loggedAmounts :=
    match simulation.returnData with
    | some d => some (parseSwapAmounts (some d))
    | none => none
  let response : Except String QuoteOk :=
    match simulation.err with
    | some e => .error ("Failed to execute swap: Transaction failed: " ++ e)
    | none => .ok ⟨true, simulation, "Swap executed successfully"⟩
  (response, r5.2.1, r1.2.2 ++ r2.2.2 ++ r3.2.2 ++ r4.2.2 ++ r5.2.2)

/-! ## Market creation -/

/-- Request parameters of `createMarket` (the destructured fields of
`params`; its `quoteTokenMint` is ignored by the source in favour of
the hardcoded wSOL). -/
structure CreateMarketParams where
  name : String
  symbol : String
  uri : String
  totalSupply : Nat
  creatorFeeShare : Nat
  stakingFeeShare : Nat
deriving DecidableEq, Repr

/-- The success payload of `createMarket`. -/
structure CreateMarketOk where
  success : Bool
  marketAddress : Address
  baseTokenMint : Address
deriving DecidableEq, Repr

/-- `TokenMillClient.setPrices(market)`: build and submit one
`setMarketPrices` transaction signed by the wallet. -/
def setPrices (env : Env) (L : Ledger) (market : Address) : Ledger × List Tx :=
  let tx := Tx.setMarketPrices market env.wallet [env.wallet]
  (sendTx L tx, [tx])

/-- `TokenMillClient.createMarket(params)`: derive the quote-token
badge, market, market base ATA and metadata addresses; submit the
`createMarketWithSpl` transaction; immediately afterwards derive the
swap-authority badge and submit the `lockMarket` transaction naming
the delegated swap authority; then call `setPrices`.
`baseTokenMint` stands for the freshly generated keypair's public key
(`Keypair.generate()`). -/
def createMarket (env : Env) (L : Ledger) (p : CreateMarketParams) (baseTokenMint : Address) :
    CreateMarketOk × Ledger × List Tx :=
  let quoteTokenMint := wSOL
  let quoteTokenBadge :=
    findProgramAddressSync
      [.lit "quote_token_badge", .addr env.config, .addr quoteTokenMint] env.programId
  let market := findProgramAddressSync [.lit "market", .addr baseTokenMint] env.programId
  let marketBaseTokenAta := Address.ata baseTokenMint market
  let baseTokenMetadata :=
    findProgramAddressSync
      [.lit "metadata", .addr metaplexProgramId, .addr baseTokenMint] metaplexProgramId
  let createTx := Tx.createMarketWithSpl p.name p.symbol p.uri
    (p.totalSupply * 1000000) p.creatorFeeShare p.stakingFeeShare
    env.config market baseTokenMint baseTokenMetadata marketBaseTokenAta
    quoteTokenMint quoteTokenBadge env.wallet [baseTokenMint, env.wallet]
  let L1 := sendTx L createTx
  let swapAuthorityBadge :=
    findProgramAddressSync
      (swapAuthorityBadgeSeedsCreateMarket market env.swapAuthority) env.programId
  let lockTx := Tx.lockMarket market (some swapAuthorityBadge) env.swapAuthority
    env.wallet [env.wallet]
  let L2 := sendTx L1 lockTx
  let r := setPrices env L2 market
  (⟨true, market, baseTokenMint⟩, r.1, [createTx, lockTx] ++ r.2)

/-! ## Staking provisioning -/

/-- `getStakePositionAddress(market)`: the stake-position PDA of the
wallet for a market. -/
def getStakePositionAddress (env : Env) (market : Address) : Address :=
  findProgramAddressSync
    [.lit "stake_position", .addr market, .addr env.wallet] env.programId

/-- `setupStakingIfNeeded(staking, market)`: query the staking account;
if absent, submit one `createStaking` transaction signed by the
wallet; otherwise do nothing. -/
def setupStakingIfNeeded (env : Env) (L : Ledger) (staking market : Address) :
    Ledger × List Tx :=
  if L.accountExists staking then (L, [])
  else
    let tx := Tx.createStaking market staking env.wallet [env.wallet]
    (sendTx L tx, [tx])

/-- `setupStakePositionIfNeeded(market)`: derive the wallet's
stake-position address, query it, and if absent submit one
`createStakePosition` transaction signed by the wallet. -/
def setupStakePositionIfNeeded (env : Env) (L : Ledger) (market : Address) :
    Ledger × List Tx :=
  let stakePosition := getStakePositionAddress env market
  if L.accountExists stakePosition then (L, [])
  else
    let tx := Tx.createStakePosition market stakePosition env.wallet [env.wallet]
    (sendTx L tx, [tx])

/-! ## createConfig -/

/-- `TokenMillClient.createConfig(...)`: generate a config keypair
(`freshConfig` stands for its public key), submit the `createConfig`
instruction via `.rpc()`, and on success store the new address in the
client's `config` field.  Everything runs inside a `try` whose `catch`
only logs, and the method body contains no `return` statement: the
response component is therefore `none` (JavaScript `undefined`) on
both the success and the failure path.  `rpcError` models whether the
anchor `.rpc()` call throws.  The result is
`(response, client config field after the call, submitted trace)`. -/
def createConfig (env : Env) (L : Ledger)
    (authority protocolFeeRecipient : Address)
    (protocolFeeShare referralFeeShare : Nat)
    (freshConfig : Address) (rpcError : Option String) :
    Option (Except String Address) × Address × List Tx :=
  match rpcError with
  | some _ => (none, env.config, [])
  | none =>
      let tx := Tx.createConfigIx freshConfig env.wallet authority protocolFeeRecipient
        protocolFeeShare referralFeeShare [freshConfig]
      let _L1 := sendTx L tx
      (none, freshConfig, [tx])

/-! ## Helper lemmas -/

theorem sendTx_tokenBalance (L : Ledger) (t : Tx) :
    (sendTx L t).tokenBalance = L.tokenBalance := by
  cases t <;> rfl

theorem sendTx_marketConfigOf (L : Ledger) (t : Tx) :
    (sendTx L t).marketConfigOf = L.marketConfigOf := by
  cases t <;> rfl

theorem sendTx_baseTokenMintOf (L : Ledger) (t : Tx) :
    (sendTx L t).baseTokenMintOf = L.baseTokenMintOf := by
  cases t <;> rfl

theorem sendTx_protocolFeeRecipientOf (L : Ledger) (t : Tx) :
    (sendTx L t).protocolFeeRecipientOf = L.protocolFeeRecipientOf := by
  cases t <;> rfl

theorem getOrCreateATA_fst (env : Env) (L : Ledger) (mint owner : Address) :
    (getOrCreateAssociatedTokenAccount env L mint owner).1 = Address.ata mint owner := by
  unfold getOrCreateAssociatedTokenAccount
  by_cases h : L.accountExists (Address.ata mint owner) = true <;> simp [h]

@[simp] theorem getOrCreateATA_tokenBalance (env : Env) (L : Ledger) (mint owner : Address) :
    ((getOrCreateAssociatedTokenAccount env L mint owner).2.1).tokenBalance = L.tokenBalance := by
  unfold getOrCreateAssociatedTokenAccount
  by_cases h : L.accountExists (Address.ata mint owner) = true <;>
    simp [h, sendTx_tokenBalance]

@[simp] theorem getOrCreateATA_any_freeMarket (env : Env) (L : Ledger) (mint owner : Address) :
    ((getOrCreateAssociatedTokenAccount env L mint owner).2.2).any Tx.isFreeMarketIx = false := by
  unfold getOrCreateAssociatedTokenAccount
  by_cases h : L.accountExists (Address.ata mint owner) = true <;>
    simp [h, Tx.isFreeMarketIx, Tx.kind]

@[simp] theorem getOrCreateATA_find?_permSwap (env : Env) (L : Ledger) (mint owner : Address) :
    ((getOrCreateAssociatedTokenAccount env L mint owner).2.2).find? Tx.isPermSwap = none := by
  unfold getOrCreateAssociatedTokenAccount
  by_cases h : L.accountExists (Address.ata mint owner) = true <;>
    simp [h, Tx.isPermSwap, Tx.kind]

@[simp] theorem getOrCreateATA_any_permSwap (env : Env) (L : Ledger) (mint owner : Address) :
    ((getOrCreateAssociatedTokenAccount env L mint owner).2.2).any Tx.isPermSwap = false := by
  unfold getOrCreateAssociatedTokenAccount
  by_cases h : L.accountExists (Address.ata mint owner) = true <;>
    simp [h, Tx.isPermSwap, Tx.kind]

@[simp] theorem getOrCreateATA_all_createAta (env : Env) (L : Ledger) (mint owner : Address) :
    ((getOrCreateAssociatedTokenAccount env L mint owner).2.2).all Tx.isCreateAta = true := by
  unfold getOrCreateAssociatedTokenAccount
  by_cases h : L.accountExists (Address.ata mint owner) = true <;>
    simp [h, Tx.isCreateAta, Tx.kind]

/-! ## Sample inputs for witnesses and counterexamples -/

/-- A sample process environment. -/
def sampleEnv : Env :=
  { wallet := .key "wallet", swapAuthority := .key "swapAuth",
    programId := .key "prog", config := .key "config" }

/-- A ledger on which every account exists and every market holds
70 wSOL. -/
def sampleLedgerRich : Ledger :=
  { accountExists := fun _ => true,
    tokenBalance := fun _ => some 70,
    marketConfigOf := fun _ => .key "config",
    baseTokenMintOf := fun _ => .key "mint",
    protocolFeeRecipientOf := fun _ => .key "feeRecipient",
    simulate := fun _ => { err := none, returnData := some ⟨["AAAA"]⟩ } }

/-- A ledger on which every account exists but markets hold only
68.999 wSOL, just below the threshold. -/
def sampleLedgerPoor : Ledger :=
  { accountExists := fun _ => true,
    tokenBalance := fun _ => some (68999 / 1000),
    marketConfigOf := fun _ => .key "config",
    baseTokenMintOf := fun _ => .key "mint",
    protocolFeeRecipientOf := fun _ => .key "feeRecipient",
    simulate := fun _ => { err := none, returnData := some ⟨["AAAA"]⟩ } }

/-- Like `sampleLedgerRich`, but the wallet's wSOL associated token
account does not exist yet. -/
def sampleLedgerNoUserQuote : Ledger :=
  { accountExists := fun a => if a = Address.ata wSOL (Address.key "wallet") then false else true,
    tokenBalance := fun _ => some 70,
    marketConfigOf := fun _ => .key "config",
    baseTokenMintOf := fun _ => .key "mint",
    protocolFeeRecipientOf := fun _ => .key "feeRecipient",
    simulate := fun _ => { err := none, returnData := some ⟨["AAAA"]⟩ } }

/-- Sample swap request parameters. -/
def sampleSwapParams : SwapParams :=
  { market := "market1", quoteTokenMint := "So11111111111111111111111111111111111111112",
    action := .buy, tradeType := .exactInput, amount := 1000, otherAmountThreshold := 990 }

/-! ## Claims -/

/-- C4: the quote decoder reads bytes `[0..8)` of the base64-decoded
buffer as a little-endian unsigned 64-bit input amount (a value below
`2^64` whenever the buffer holds bytes) and bytes `[8..16)` as a
little-endian unsigned 64-bit output amount; every buffer shorter than
16 bytes, and a missing buffer, decodes to `{inputAmount := 0,
outputAmount := 0}`; and encoding `(123456789, 987654321)` as two
little-endian uint64 fields, base64-wrapping, and decoding reproduces
the exact pair. -/
theorem claim4_quote_decoder :
    (∀ buf : List Nat, 16 ≤ buf.length →
        parseSwapBuffer buf = ⟨readBigUInt64LE buf 0, readBigUInt64LE buf 8⟩)
    ∧ (∀ (buf : List Nat) (off : Nat), (∀ b ∈ buf, b < 256) →
        readBigUInt64LE buf off < 2 ^ 64)
    ∧ (∀ buf : List Nat, buf.length < 16 → parseSwapBuffer buf = ⟨0, 0⟩)
    ∧ parseSwapAmounts none = ⟨0, 0⟩
    ∧ parseSwapAmounts
        (some ⟨[base64Encode (encodeUInt64LE 123456789 ++ encodeUInt64LE 987654321)]⟩)
        = ⟨123456789, 987654321⟩ := by
  refine ⟨?_, ?_, ?_, rfl, by decide⟩
  · intro buf h
    unfold parseSwapBuffer
    rw [if_neg (by omega)]
  · intro buf off h
    have hg : ∀ i : Nat, buf.getD i 0 < 256 := by
      intro i
      by_cases hi : i < buf.length
      · rw [List.getD_eq_getElem _ _ hi]
        exact h _ (List.getElem_mem hi)
      · rw [List.getD_eq_default _ _ (by omega)]
        omega
    have h0 := hg off
    have h1 := hg (off + 1)
    have h2 := hg (off + 2)
    have h3 := hg (off + 3)
    have h4 := hg (off + 4)
    have h5 := hg (off + 5)
    have h6 := hg (off + 6)
    have h7 := hg (off + 7)
    unfold readBigUInt64LE
    have hp : (2 : ℕ) ^ 64 = 18446744073709551616 := by norm_num
    rw [hp]
    omega
  · intro buf h
    unfold parseSwapBuffer
    rw [if_pos h]

/-- C4 witness: a 16-byte buffer decodes to its two little-endian
words, and the spec's 10-byte example decodes to `{0, 0}`. -/
theorem claim4_witness :
    parseSwapBuffer [1, 0, 0, 0, 0, 0, 0, 0, 2, 0, 0, 0, 0, 0, 0, 0] = ⟨1, 2⟩
      ∧ parseSwapBuffer [0, 1, 2, 3, 4, 5, 6, 7, 8, 9] = ⟨0, 0⟩ := by
  constructor
  · rw [claim4_quote_decoder.1 _ (by decide)]; decide
  · exact claim4_quote_decoder.2.2.1 _ (by decide)

/-- C5 counterexample: the badge derivation in `freeMarket` does not
use the seed sequence (tag, market, authority) the claim asserts for
every operation — its seed list omits the authority address. -/
theorem claim5_counterexample :
    swapAuthorityBadgeSeedsFreeMarket (Address.key "market1")
      ≠ specSwapAuthorityBadgeSeeds (Address.key "market1") (Address.key "authority1") := by
  decide

/-- C5 (amended): market creation, `executeSwap` and `quoteSwap` derive
the swap-authority badge from exactly the seed sequence (literal tag
`swap_authority`, market address, authority address); `freeMarket`
alone derives it from only (tag, market), omitting the authority
address, and so differs from the spec's sequence. -/
theorem claim5_badge_seeds :
    ∀ market authority : Address,
      swapAuthorityBadgeSeedsCreateMarket market authority
          = specSwapAuthorityBadgeSeeds market authority
        ∧ swapAuthorityBadgeSeedsExecuteSwap market authority
          = specSwapAuthorityBadgeSeeds market authority
        ∧ swapAuthorityBadgeSeedsQuoteSwap market authority
          = specSwapAuthorityBadgeSeeds market authority
        ∧ swapAuthorityBadgeSeedsFreeMarket market
          = [Seed.lit "swap_authority", Seed.addr market]
        ∧ swapAuthorityBadgeSeedsFreeMarket market
          ≠ specSwapAuthorityBadgeSeeds market authority := by
  intro market authority
  refine ⟨rfl, rfl, rfl, rfl, ?_⟩
  simp [swapAuthorityBadgeSeedsFreeMarket, specSwapAuthorityBadgeSeeds]

/-- C9 counterexample: a `createConfig` call returns `undefined` to its
caller both when the rpc succeeds and when it throws — the caller
receives neither the created config address nor a failure reason. -/
theorem claim9_counterexample :
    (createConfig sampleEnv sampleLedgerRich (Address.key "auth") (Address.key "fee")
        10 10 (Address.key "freshConfig") none).1 = none
      ∧ (createConfig sampleEnv sampleLedgerRich (Address.key "auth") (Address.key "fee")
        10 10 (Address.key "freshConfig") (some "rpc failed")).1 = none :=
  ⟨rfl, rfl⟩

/-- C9 (amended): `createConfig` never returns anything to its caller:
the response is `undefined` on both paths.  On success it submits the
one `createConfig` transaction and stores the fresh config address in
the client's `config` field; when the rpc throws, the error is only
logged, nothing is recorded as submitted, and the client's `config`
field keeps its old value. -/
theorem claim9_createConfig_silent :
    ∀ (env : Env) (L : Ledger) (authority feeRecipient : Address)
      (pShare rShare : Nat) (freshConfig : Address) (rpcError : Option String),
      (createConfig env L authority feeRecipient pShare rShare freshConfig rpcError).1 = none
        ∧ (rpcError = none →
            (createConfig env L authority feeRecipient pShare rShare freshConfig rpcError).2.1
                = freshConfig
              ∧ ((createConfig env L authority feeRecipient pShare rShare freshConfig
                  rpcError).2.2).map Tx.kind = [TxKind.createConfigK])
        ∧ (∀ e, rpcError = some e →
            (createConfig env L authority feeRecipient pShare rShare freshConfig rpcError).2.2 = []
              ∧ (createConfig env L authority feeRecipient pShare rShare freshConfig rpcError).2.1
                = env.config) := by
  intro env L authority feeRecipient pShare rShare freshConfig rpcError
  cases rpcError with
  | none =>
      refine ⟨rfl, And.intro (fun _ => ⟨rfl, rfl⟩) (fun e h => ?_)⟩
      exact nomatch h
  | some e =>
      refine ⟨rfl, And.intro (fun h => nomatch h) (fun e2 h => ?_)⟩
      cases h
      exact ⟨rfl, rfl⟩

/-- C9 witness: the amended statement applied at a concrete successful
call and a concrete failing call. -/
theorem claim9_witness :
    (createConfig sampleEnv sampleLedgerRich (Address.key "auth") (Address.key "fee")
        10 10 (Address.key "freshConfig") none).2.1 = Address.key "freshConfig"
      ∧ (createConfig sampleEnv sampleLedgerRich (Address.key "auth") (Address.key "fee")
        10 10 (Address.key "freshConfig") (some "boom")).2.2 = [] :=
  ⟨((claim9_createConfig_silent sampleEnv sampleLedgerRich (Address.key "auth")
      (Address.key "fee") 10 10 (Address.key "freshConfig") none).2.1 rfl).1,
   ((claim9_createConfig_silent sampleEnv sampleLedgerRich (Address.key "auth")
      (Address.key "fee") 10 10 (Address.key "freshConfig") (some "boom")).2.2 "boom" rfl).1⟩

/-- C10: neither `executeSwap` nor `quoteSwap` depends on the
caller-supplied `quoteTokenMint` request field: two calls differing
only in that field produce identical results, updated ledgers and
transaction traces (the quote mint is the hardcoded wSOL address
shadowing the request field). -/
theorem claim10_quoteTokenMint_independent :
    ∀ (env : Env) (L : Ledger) (m q1 q2 : String) (a : SwapAction) (t : TradeType)
      (amount threshold : Nat),
      executeSwap env L ⟨m, q1, a, t, amount, threshold⟩
          = executeSwap env L ⟨m, q2, a, t, amount, threshold⟩
        ∧ quoteSwap env L ⟨m, q1, a, t, amount, threshold⟩
          = quoteSwap env L ⟨m, q2, a, t, amount, threshold⟩ :=
  fun _ _ _ _ _ _ _ _ _ => ⟨rfl, rfl⟩

/-- C1: the observed lifecycle state is `FREE` iff the quote-asset
token-account balance (in human-readable units, with a `null` reading
counting as 0) is at least 69, and `LOCKED` otherwise; `freeMarket`'s
pre-flight guard fires exactly when the state observed on the current
ledger is `LOCKED`, and `executeSwap` takes its free-market path
(submitting a `freeMarket` instruction before the swap) exactly when
the state observed on the current ledger is `FREE` — both paths
recompute the comparison from the ledger passed to the call, with no
cached copy. -/
theorem claim1_lifecycle_threshold :
    (∀ b : Option ℚ, observe b = .FREE ↔ REQUIRED_WSOL_AMOUNT ≤ b.getD 0)
    ∧ (∀ (env : Env) (L : Ledger) (m : String), m ≠ "" →
        ((freeMarket env L m).1 =
            .error (.preconditionUnmet
              ((L.tokenBalance (Address.ata wSOL (Address.key m))).getD 0)
              REQUIRED_WSOL_AMOUNT)
          ↔ observe (L.tokenBalance (Address.ata wSOL (Address.key m))) = .LOCKED))
    ∧ (∀ (env : Env) (L : Ledger) (p : SwapParams),
        (((executeSwap env L p).2.2).any Tx.isFreeMarketIx = true
          ↔ observe (L.tokenBalance (Address.ata wSOL (Address.key p.market))) = .FREE)) := by
  refine ⟨?_, ?_, ?_⟩
  · intro b
    unfold observe
    by_cases h : b.getD 0 < REQUIRED_WSOL_AMOUNT
    · simp [h, not_le.2 h]
    · simp [h, not_lt.1 h]
  · intro env L m hm
    unfold freeMarket
    rw [if_neg hm]
    by_cases hb :
        (L.tokenBalance (Address.ata wSOL (Address.key m))).getD 0 < REQUIRED_WSOL_AMOUNT <;>
      simp [hb, observe]
  · intro env L p
    by_cases hb :
        (L.tokenBalance (Address.ata wSOL (Address.key p.market))).getD 0
          < REQUIRED_WSOL_AMOUNT <;>
      simp [executeSwap, hb, observe, List.any_append, Tx.isFreeMarketIx, Tx.kind]

/-- C1 witness: on a ledger holding 68.999 wSOL the observed state is
`LOCKED` and `freeMarket`'s guard fires; on one holding 70 wSOL the
state is `FREE` and `executeSwap` submits a `freeMarket` instruction. -/
theorem claim1_witness :
    ((freeMarket sampleEnv sampleLedgerPoor "market1").1 =
        .error (.preconditionUnmet (68999 / 1000) REQUIRED_WSOL_AMOUNT)
      ↔ observe (some (68999 / 1000)) = .LOCKED)
    ∧ (((executeSwap sampleEnv sampleLedgerRich sampleSwapParams).2.2).any Tx.isFreeMarketIx = true
      ↔ observe (some 70) = .FREE) :=
  ⟨claim1_lifecycle_threshold.2.1 sampleEnv sampleLedgerPoor "market1" (by decide),
   claim1_lifecycle_threshold.2.2 sampleEnv sampleLedgerRich sampleSwapParams⟩

/-- C2: a `freeMarket` call on a market whose quote-asset balance is
below the 69-unit threshold is rejected by the pre-flight guard — no
transaction is built or submitted and the ledger is untouched — and
the rejection carries both the observed balance and the required
threshold. -/
theorem claim2_freeMarket_precondition :
    ∀ (env : Env) (L : Ledger) (m : String), m ≠ "" →
      (L.tokenBalance (Address.ata wSOL (Address.key m))).getD 0 < REQUIRED_WSOL_AMOUNT →
      freeMarket env L m =
        (.error (.preconditionUnmet
            ((L.tokenBalance (Address.ata wSOL (Address.key m))).getD 0)
            REQUIRED_WSOL_AMOUNT), L, []) := by
  intro env L m hm hb
  unfold freeMarket
  rw [if_neg hm]
  simp [hb]

/-- C2 witness: the guard at a concrete market holding 68.999 wSOL. -/
theorem claim2_witness :
    freeMarket sampleEnv sampleLedgerPoor "market1" =
      (.error (.preconditionUnmet (68999 / 1000) REQUIRED_WSOL_AMOUNT),
        sampleLedgerPoor, []) :=
  claim2_freeMarket_precondition sampleEnv sampleLedgerPoor "market1" (by decide)
    (by norm_num [sampleLedgerPoor, REQUIRED_WSOL_AMOUNT])

/-- C3: the `permissionedSwap` transaction `executeSwap` builds always
matches the observed lifecycle state: when `LOCKED` its signer set is
the wallet together with the delegated swap authority, its
`swapAuthority` account is the delegated authority, and the
swap-authority badge account is included; when `FREE` its signer set
is the wallet alone, its `swapAuthority` account is the wallet's own
address, and no badge account is included. -/
theorem claim3_swap_signer_switch :
    ∀ (env : Env) (L : Ledger) (p : SwapParams),
      (((executeSwap env L p).2.2).find? Tx.isPermSwap).map Tx.txSigners
          = some (match observe (L.tokenBalance (Address.ata wSOL (Address.key p.market))) with
              | .LOCKED => [env.wallet, env.swapAuthority]
              | .FREE => [env.wallet])
        ∧ (((executeSwap env L p).2.2).find? Tx.isPermSwap).bind Tx.swapAuthorityAccount
          = some (match observe (L.tokenBalance (Address.ata wSOL (Address.key p.market))) with
              | .LOCKED => env.swapAuthority
              | .FREE => env.wallet)
        ∧ (((executeSwap env L p).2.2).find? Tx.isPermSwap).bind Tx.swapAuthorityBadgeAccount
          = (match observe (L.tokenBalance (Address.ata wSOL (Address.key p.market))) with
              | .LOCKED => some (findProgramAddressSync
                  (swapAuthorityBadgeSeedsExecuteSwap (Address.key p.market) env.swapAuthority)
                  env.programId)
              | .FREE => none) := by
  intro env L p
  by_cases hb :
      (L.tokenBalance (Address.ata wSOL (Address.key p.market))).getD 0
        < REQUIRED_WSOL_AMOUNT <;>
    refine ⟨?_, ?_, ?_⟩ <;>
    simp [executeSwap, hb, observe, List.find?_append, List.find?, Tx.isPermSwap, Tx.kind,
      Tx.txSigners, Tx.swapAuthorityAccount, Tx.swapAuthorityBadgeAccount,
      Tx.isFreeMarketIx]

/-- C6 counterexample: market creation submits its transactions in the
order create market, lock market, set prices — not the claimed
create market, set prices, lock market. -/
theorem claim6_counterexample :
    ((createMarket sampleEnv sampleLedgerRich ⟨"n", "s", "u", 1000, 10, 10⟩
          (Address.key "mint1")).2.2).map Tx.kind
        = [TxKind.createMarketK, TxKind.lockMarketK, TxKind.setMarketPricesK]
      ∧ ([TxKind.createMarketK, TxKind.lockMarketK, TxKind.setMarketPricesK]
          ≠ [TxKind.createMarketK, TxKind.setMarketPricesK, TxKind.lockMarketK]) :=
  ⟨rfl, by decide⟩

/-- C6 (amended): on market creation a `lockMarket` instruction is
always issued immediately after the market-creation transaction and
before prices are set (submitted order: create market, lock market,
set prices), and the lock names the designated delegated swap
authority with the swap-authority badge account included. -/
theorem claim6_create_lock_prices :
    ∀ (env : Env) (L : Ledger) (p : CreateMarketParams) (mint : Address),
      ((createMarket env L p mint).2.2).map Tx.kind
          = [TxKind.createMarketK, TxKind.lockMarketK, TxKind.setMarketPricesK]
        ∧ ((createMarket env L p mint).2.2).get? 1
          = some (Tx.lockMarket
              (findProgramAddressSync [Seed.lit "market", Seed.addr mint] env.programId)
              (some (findProgramAddressSync
                (swapAuthorityBadgeSeedsCreateMarket
                  (findProgramAddressSync [Seed.lit "market", Seed.addr mint] env.programId)
                  env.swapAuthority) env.programId))
              env.swapAuthority env.wallet [env.wallet]) :=
  fun _ _ _ _ => ⟨rfl, rfl⟩

/-- C7 counterexample: `quoteSwap` can create an on-chain account — on
a ledger where the wallet's wSOL associated token account is missing,
the call submits a creation transaction for it. -/
theorem claim7_counterexample :
    ((quoteSwap sampleEnv sampleLedgerNoUserQuote sampleSwapParams).2.2)
        = [Tx.createAta wSOL (Address.key "wallet") (Address.key "wallet")]
      ∧ ([Tx.createAta wSOL (Address.key "wallet") (Address.key "wallet")] ≠ ([] : List Tx)) :=
  ⟨by decide, by decide⟩

/-- C7 (amended): `quoteSwap` never submits the swap transaction itself
(every transaction it submits is an associated-token-account
creation), and on success it returns the raw simulation result — with
`success = true`, the fixed message, and a simulation that reported no
error — rather than the decoded quote pair, which it only logs. -/
theorem claim7_quote_simulation :
    ∀ (env : Env) (L : Ledger) (p : SwapParams),
      ((quoteSwap env L p).2.2).all Tx.isCreateAta = true
        ∧ ((quoteSwap env L p).2.2).any Tx.isPermSwap = false
        ∧ ∀ ok : QuoteOk, (quoteSwap env L p).1 = .ok ok →
            ok.success = true ∧ ok.message = "Swap executed successfully"
              ∧ ok.simulation.err = none := by
  intro env L p
  refine ⟨?_, ?_, ?_⟩
  · simp [quoteSwap, List.all_append]
  · simp [quoteSwap, List.any_append]
  · intro ok h
    simp only [quoteSwap] at h
    split at h
    · exact nomatch h
    · next heq =>
        cases h
        exact ⟨rfl, rfl, heq⟩

/-- C7 witness: the amended statement applied to a concrete call whose
simulation succeeds, yielding the raw simulation in the response. -/
theorem claim7_witness :
    (QuoteOk.mk true ⟨none, some ⟨["AAAA"]⟩⟩ "Swap executed successfully").success = true
      ∧ (QuoteOk.mk true ⟨none, some ⟨["AAAA"]⟩⟩ "Swap executed successfully").simulation.err
        = none := by
  have h := (claim7_quote_simulation sampleEnv sampleLedgerRich sampleSwapParams).2.2
    ⟨true, ⟨none, some ⟨["AAAA"]⟩⟩, "Swap executed successfully"⟩ rfl
  exact ⟨h.1, h.2.2⟩

/-- C8: provisioning is idempotent: for each of
`setupStakingIfNeeded` and `setupStakePositionIfNeeded`, calling twice
in sequence submits exactly one creation transaction when the account
was initially absent (and none when present), the second call submits
nothing, and a call whose existence check finds the account present
submits nothing. -/
theorem claim8_idempotent_provisioning :
    ∀ (env : Env) (L : Ledger) (staking market : Address),
      ((setupStakingIfNeeded env L staking market).2
          ++ (setupStakingIfNeeded env (setupStakingIfNeeded env L staking market).1
              staking market).2).length
          = (if L.accountExists staking then 0 else 1)
        ∧ (setupStakingIfNeeded env (setupStakingIfNeeded env L staking market).1
            staking market).2 = []
        ∧ (L.accountExists staking = true → (setupStakingIfNeeded env L staking market).2 = [])
        ∧ ((setupStakePositionIfNeeded env L market).2
            ++ (setupStakePositionIfNeeded env (setupStakePositionIfNeeded env L market).1
                market).2).length
          = (if L.accountExists (getStakePositionAddress env market) then 0 else 1)
        ∧ (setupStakePositionIfNeeded env (setupStakePositionIfNeeded env L market).1
            market).2 = []
        ∧ (L.accountExists (getStakePositionAddress env market) = true →
            (setupStakePositionIfNeeded env L market).2 = []) := by
  intro env L staking market
  refine ⟨?_, ?_, ?_, ?_, ?_, ?_⟩
  · by_cases h : L.accountExists staking = true <;>
      simp [setupStakingIfNeeded, h, sendTx, Tx.createdAccount, markExists]
  · by_cases h : L.accountExists staking = true <;>
      simp [setupStakingIfNeeded, h, sendTx, Tx.createdAccount, markExists]
  · intro h
    simp [setupStakingIfNeeded, h]
  · by_cases h : L.accountExists (getStakePositionAddress env market) = true <;>
      simp [setupStakePositionIfNeeded, h, sendTx, Tx.createdAccount, markExists]
  · by_cases h : L.accountExists (getStakePositionAddress env market) = true <;>
      simp [setupStakePositionIfNeeded, h, sendTx, Tx.createdAccount, markExists]
  · intro h
    simp [setupStakePositionIfNeeded, h]

/-- C8 witness: on a ledger where both accounts already exist, neither
provisioning call submits a transaction. -/
theorem claim8_witness :
    (setupStakingIfNeeded sampleEnv sampleLedgerRich (Address.key "staking")
        (Address.key "market1")).2 = []
      ∧ (setupStakePositionIfNeeded sampleEnv sampleLedgerRich (Address.key "market1")).2 = [] :=
  ⟨(claim8_idempotent_provisioning sampleEnv sampleLedgerRich (Address.key "staking")
      (Address.key "market1")).2.2.1 rfl,
   (claim8_idempotent_provisioning sampleEnv sampleLedgerRich (Address.key "staking")
      (Address.key "market1")).2.2.2.2.2 rfl⟩

end TokenMill
